import Mathlib

/-
Verification development for the mdnov_novx converter.

The definitions below are a shallow embedding of the Python source
(mdnov_novx.py and novxlib/novx_file.py): entity classes become
structures, the dynamic property setters become explicit state-passing
functions, the change-notification callback is modelled by a hook
counter, and exceptions become Except values.
-/

deriving instance DecidableEq for Except

namespace MdnovNovx

/-! ## Models of the Python library primitives used by the source -/

/-- Split a character list at every occurrence of a separator
(scanning left to right, non-overlapping), carrying the reversed
current piece and the number of separator characters still to skip.
All recursion is structural so that proofs can evaluate it. -/
def splitStep (sep : List Char) : List Char → List Char → Nat → List (List Char)
  | [], acc, _ => [acc.reverse]
  | c :: rest, acc, skip =>
    match skip with
    | n + 1 => splitStep sep rest acc n
    | 0 =>
      if sep ≠ [] ∧ (c :: rest).take sep.length = sep then
        acc.reverse :: splitStep sep rest [] (sep.length - 1)
      else splitStep sep rest (c :: acc) 0

/-- Model of Python str.split(sep) for a non-empty separator. -/
def pySplit (s : String) (sep : String) : List String :=
  (splitStep sep.data s.data [] 0).map String.mk

/-- Split a character list on a single separator character. -/
def splitOnChar (sep : Char) (l : List Char) : List (List Char) :=
  splitStep [sep] l [] 0

/-- Split a character list at every character satisfying a predicate. -/
def splitPred (p : Char → Bool) : List Char → List Char → List (List Char)
  | [], acc => [acc.reverse]
  | c :: rest, acc =>
    if p c then acc.reverse :: splitPred p rest []
    else splitPred p rest (c :: acc)

/-- Model of Python str.join. -/
def pyJoin (sep : String) : List String → String
  | [] => ""
  | [x] => x
  | x :: y :: rest => x ++ sep ++ pyJoin sep (y :: rest)

/-- Model of Python str.startswith. -/
def pyStartsWith (s pre : String) : Bool :=
  s.data.take pre.data.length = pre.data

/-- Model of Python str.strip() (strip whitespace from both ends). -/
def pyStrip (s : String) : String :=
  let l := s.data.dropWhile Char.isWhitespace
  String.mk ((l.reverse.dropWhile Char.isWhitespace).reverse)

/-- Strip every character of `cs` from both ends of a string, modelling
Python str.strip(chars). -/
def stripSet (cs : List Char) (s : String) : String :=
  let l := s.data.dropWhile (fun c => cs.contains c)
  let r := (l.reverse.dropWhile (fun c => cs.contains c)).reverse
  String.mk r

/-- Decimal digit value of a character, none if not a digit. -/
def digitVal (c : Char) : Option Nat :=
  if c.isDigit then some (c.toNat - 48) else none

/-- Parse a run of decimal digits into a Nat; none if any char is not a
digit or the list is empty. -/
def digitsToNat : List Char → Option Nat
  | [] => none
  | cs =>
    cs.foldl (fun acc c =>
      match acc, digitVal c with
      | some n, some d => some (n * 10 + d)
      | _, _ => none) (some 0)

/-- Model of Python int(str): optional whitespace, optional sign, at
least one decimal digit. -/
def intParse (s : String) : Option Int :=
  let t := (pyStrip s).data
  match t with
  | '-' :: rest => (digitsToNat rest).map (fun n => -(n : Int))
  | '+' :: rest => (digitsToNat rest).map (fun n => (n : Int))
  | rest => (digitsToNat rest).map (fun n => (n : Int))

/-- Gregorian leap-year test, as in Python's calendar/datetime. -/
def isLeap (y : Nat) : Bool := y % 4 = 0 ∧ (y % 100 ≠ 0 ∨ y % 400 = 0)

/-- Days in a month of the proleptic Gregorian calendar. -/
def daysInMonth (y m : Nat) : Nat :=
  if m = 2 then (if isLeap y then 29 else 28)
  else if m = 4 ∨ m = 6 ∨ m = 9 ∨ m = 11 then 30
  else 31

/-- Calendar date record used to model datetime.date values. -/
structure PyDate where
  year : Nat
  month : Nat
  day : Nat
deriving DecidableEq, Repr

/-- Days before the first of a given month (month 1..12). -/
def daysBeforeMonth (y m : Nat) : Nat :=
  let lens := [31, if isLeap y then 29 else 28, 31, 30, 31, 30, 31, 31, 30, 31, 30, 31]
  (lens.take (m - 1)).sum

/-- Proleptic Gregorian ordinal as in Python date.toordinal
(0001-01-01 has ordinal 1). -/
def pyOrdinal (d : PyDate) : Nat :=
  let y := d.year - 1
  365 * y + y / 4 - y / 100 + y / 400 + daysBeforeMonth d.year d.month + d.day

/-- Weekday as in Python date.weekday (Monday = 0). -/
def pyWeekday (d : PyDate) : Nat := (pyOrdinal d + 6) % 7

/-- Model of Python date.fromisoformat: accepts exactly the zero-padded
format YYYY-MM-DD with a valid calendar date, returns none otherwise
(where the original raises ValueError). -/
def isoDateParse (s : String) : Option PyDate :=
  match s.data with
  | [y1, y2, y3, y4, h1, m1, m2, h2, d1, d2] =>
    if h1 = '-' ∧ h2 = '-' then
      match digitsToNat [y1, y2, y3, y4], digitsToNat [m1, m2], digitsToNat [d1, d2] with
      | some y, some m, some d =>
        if 1 ≤ y ∧ 1 ≤ m ∧ m ≤ 12 ∧ 1 ≤ d ∧ d ≤ daysInMonth y m then
          some ⟨y, m, d⟩
        else none
      | _, _, _ => none
    else none
  | _ => none

/-- Validity test modelling Python time.fromisoformat (pre-3.11 form):
HH, HH:MM, HH:MM:SS or HH:MM:SS.ffffff with two-digit components. -/
def timeParseOk (s : String) : Bool :=
  let comp2 (cs : List Char) (bound : Nat) : Bool :=
    match cs with
    | [a, b] => match digitsToNat [a, b] with
      | some v => v < bound
      | none => false
    | _ => false
  let secOk (cs : List Char) : Bool :=
    match splitOnChar '.' cs with
    | [whole] => comp2 whole 60
    | [whole, frac] =>
      comp2 whole 60 ∧ frac.length ≥ 1 ∧ frac.length ≤ 6 ∧ frac.all Char.isDigit
    | _ => false
  match splitOnChar ':' s.data with
  | [hh] => comp2 hh 24
  | [hh, mm] => comp2 hh 24 ∧ comp2 mm 60
  | [hh, mm, ss] => comp2 hh 24 ∧ comp2 mm 60 ∧ secOk ss
  | _ => false

/-- Model of the locale-dependent strftime(x-format) rendering of a
date; the exact text depends on the process locale, so it is modelled
as an uninterpreted total function of the date. No claim depends on
its value. -/
def localeRender (d : PyDate) : String :=
  pyJoin "/" [toString d.month, toString d.day, toString d.year]

/-! ## novx_globals helper functions (from the source) -/

/-- Model of string_to_list: split on the divider, strip the pieces,
drop empty pieces and duplicates preserving order; None yields []. -/
def string_to_list (text : Option String) (divider : String) : List String :=
  match text with
  | none => []
  | some t =>
    (pySplit t divider).foldl (fun acc e =>
      let e := pyStrip e
      if e ≠ "" ∧ ¬ acc.contains e then acc ++ [e] else acc) []

/-- Model of list_to_string: join with the divider. -/
def list_to_string (elements : List String) (divider : String) : String :=
  pyJoin divider elements

/-- Model of intersection: keep the elements of elemList that occur in
refList, in order. -/
def intersection (elemList refList : List String) : List String :=
  elemList.filter (fun e => refList.contains e)

/-- Model of verified_date: checks date.fromisoformat and passes the
string through; a parse failure raises ValueError (the error case). -/
def verified_date (dateStr : Option String) : Except String (Option String) :=
  match dateStr with
  | none => .ok none
  | some s =>
    match isoDateParse s with
    | some _ => .ok (some s)
    | none => .error "ValueError: invalid isoformat date"

/-- Model of verified_int_string: checks int(str) and passes the string
through; a parse failure raises ValueError. -/
def verified_int_string (intStr : Option String) : Except String (Option String) :=
  match intStr with
  | none => .ok none
  | some s =>
    match intParse s with
    | some _ => .ok (some s)
    | none => .error "ValueError: invalid int literal"

/-- Append a colon-zero group until the string holds two colons, as in
verified_time's while loop. -/
def padColons (t : String) : String :=
  let n := t.data.count ':'
  if n = 0 then t ++ ":00:00" else if n = 1 then t ++ ":00" else t

/-- Model of verified_time: checks time.fromisoformat, then pads the
string to two colons; a parse failure raises ValueError. -/
def verified_time (timeStr : Option String) : Except String (Option String) :=
  match timeStr with
  | none => .ok none
  | some s =>
    if timeParseOk s then .ok (some (padColons s)) else .error "ValueError: invalid isoformat time"

/-! ## Word counting (Section.sectionContent setter helper) -/

/-- Single pass of ADDITIONAL_WORD_LIMITS.sub: replace double dash,
em dash, en dash and closing-paragraph tags with a space. -/
def addlWordLimitsSub : List Char → List Char
  | [] => []
  | '-' :: '-' :: rest => ' ' :: addlWordLimitsSub rest
  | '—' :: rest => ' ' :: addlWordLimitsSub rest
  | '–' :: rest => ' ' :: addlWordLimitsSub rest
  | '<' :: '/' :: 'p' :: '>' :: rest => ' ' :: addlWordLimitsSub rest
  | c :: rest => c :: addlWordLimitsSub rest

/-- Drop characters up to and including the first occurrence of pat,
failing on a newline first (regex dot does not match newlines). -/
def dropThroughNoNl (pat : List Char) : List Char → Option (List Char)
  | [] => none
  | c :: rest =>
    if (c :: rest).take pat.length = pat then some ((c :: rest).drop pat.length)
    else if c = '\n' then none
    else dropThroughNoNl pat rest

/-- A successful dropThroughNoNl with a nonempty pattern strictly
shrinks the list. -/
theorem dropThroughNoNl_length {pat : List Char} (hp : pat ≠ []) :
    ∀ l r, dropThroughNoNl pat l = some r → r.length < l.length := by
  intro l
  induction l with
  | nil => intro r h; simp [dropThroughNoNl] at h
  | cons c rest ih =>
    intro r h
    simp only [dropThroughNoNl] at h
    split at h
    · have hpos : 0 < pat.length := List.length_pos.mpr hp
      cases h
      simp only [List.length_drop, List.length_cons]
      omega
    · split at h
      · exact absurd h (by simp)
      · have := ih r h
        simp
        omega

/-- Single pass of NO_WORD_LIMITS.sub: delete note spans, comment
spans, and any remaining minimal tag-like span. -/
def noWordLimitsSub (l : List Char) : List Char :=
  match l with
  | [] => []
  | '<' :: rest =>
    if rest.take 5 = ['n', 'o', 't', 'e', '>'] then
      match hdrop : dropThroughNoNl ['<', '/', 'n', 'o', 't', 'e', '>'] (rest.drop 5) with
      | some rem => noWordLimitsSub rem
      | none => '<' :: noWordLimitsSub rest
    else if rest.take 8 = ['c', 'o', 'm', 'm', 'e', 'n', 't', '>'] then
      match hdrop : dropThroughNoNl ['<', '/', 'c', 'o', 'm', 'm', 'e', 'n', 't', '>'] (rest.drop 8) with
      | some rem => noWordLimitsSub rem
      | none => '<' :: noWordLimitsSub rest
    else
      match hrest : rest with
      | [] => ['<']
      | c1 :: rest1 =>
        if c1 = '\n' then '<' :: noWordLimitsSub rest
        else
          match hdrop : dropThroughNoNl ['>'] rest1 with
          | some rem => noWordLimitsSub rem
          | none => '<' :: noWordLimitsSub rest
  | c :: rest => c :: noWordLimitsSub rest
termination_by l.length
decreasing_by
  all_goals
    first
    | (subst hrest
       first
       | (simp only [List.length_cons]; omega)
       | (have hlt := dropThroughNoNl_length (by simp) _ _ hdrop
          simp only [List.length_cons] at hlt ⊢
          omega))
    | (simp only [List.length_cons]; omega)
    | (have hlt := dropThroughNoNl_length (by simp) _ _ hdrop
       simp only [List.length_drop] at hlt
       simp only [List.length_cons]
       omega)

/-- Count words of a content string as the sectionContent setter does:
substitute extra word limits by spaces, delete markup spans, then count
whitespace-separated tokens. -/
def countWords (text : String) : Nat :=
  let t1 := addlWordLimitsSub text.data
  let t2 := noWordLimitsSub t1
  ((String.mk t2).split Char.isWhitespace).filter (fun w => w ≠ "") |>.length

/-! ## The Section entity (class Section of the source)

Inherited fields of BasicElement, BasicElementNotes and
BasicElementTags are flattened into the structure.  The
on_element_change callback is modelled by a hook-invocation counter. -/

structure Section where
  title : Option String := none
  desc : Option String := none
  notes : Option String := none
  tags : Option (List String) := none
  links : List (String × Option String) := []
  sectionContent : Option String := none
  wordCount : Nat := 0
  scType : Option Int := none
  scene : Option Int := none
  status : Option Int := none
  appendToPrev : Option Bool := none
  goal : Option String := none
  conflict : Option String := none
  outcome : Option String := none
  plotlineNotes : Option (List (String × String)) := none
  date : Option String := none
  weekDay : Option Nat := none
  localeDate : Option String := none
  time : Option String := none
  day : Option String := none
  lastsMinutes : Option String := none
  lastsHours : Option String := none
  lastsDays : Option String := none
  characters : Option (List String) := none
  locations : Option (List String) := none
  items : Option (List String) := none
  scPlotLines : List String := []
  scPlotPoints : List (String × String) := []
  hookCount : Nat := 0
deriving DecidableEq, Repr

/-- A freshly constructed Section() with all constructor arguments
None (as created during a read pass). -/
def Section.new : Section := {}

/-- Setter for title (BasicElement.title). -/
def Section.setTitle (s : Section) (newVal : Option String) : Section :=
  if s.title ≠ newVal then { s with title := newVal, hookCount := s.hookCount + 1 } else s

/-- Setter for desc (BasicElement.desc). -/
def Section.setDesc (s : Section) (newVal : Option String) : Section :=
  if s.desc ≠ newVal then { s with desc := newVal, hookCount := s.hookCount + 1 } else s

/-- Setter for notes (BasicElementNotes.notes). -/
def Section.setNotes (s : Section) (newVal : Option String) : Section :=
  if s.notes ≠ newVal then { s with notes := newVal, hookCount := s.hookCount + 1 } else s

/-- Setter for tags (BasicElementTags.tags). -/
def Section.setTags (s : Section) (newVal : Option (List String)) : Section :=
  if s.tags ≠ newVal then { s with tags := newVal, hookCount := s.hookCount + 1 } else s

/-- Setter for links (BasicElement.links). -/
def Section.setLinks (s : Section) (newVal : List (String × Option String)) : Section :=
  if s.links ≠ newVal then { s with links := newVal, hookCount := s.hookCount + 1 } else s

/-- Setter for scType. -/
def Section.setScType (s : Section) (newVal : Option Int) : Section :=
  if s.scType ≠ newVal then { s with scType := newVal, hookCount := s.hookCount + 1 } else s

/-- Setter for scene. -/
def Section.setScene (s : Section) (newVal : Option Int) : Section :=
  if s.scene ≠ newVal then { s with scene := newVal, hookCount := s.hookCount + 1 } else s

/-- Setter for status. -/
def Section.setStatus (s : Section) (newVal : Option Int) : Section :=
  if s.status ≠ newVal then { s with status := newVal, hookCount := s.hookCount + 1 } else s

/-- Setter for appendToPrev. -/
def Section.setAppendToPrev (s : Section) (newVal : Option Bool) : Section :=
  if s.appendToPrev ≠ newVal then
    { s with appendToPrev := newVal, hookCount := s.hookCount + 1 }
  else s

/-- Setter for goal. -/
def Section.setGoal (s : Section) (newVal : Option String) : Section :=
  if s.goal ≠ newVal then { s with goal := newVal, hookCount := s.hookCount + 1 } else s

/-- Setter for conflict. -/
def Section.setConflict (s : Section) (newVal : Option String) : Section :=
  if s.conflict ≠ newVal then { s with conflict := newVal, hookCount := s.hookCount + 1 } else s

/-- Setter for outcome. -/
def Section.setOutcome (s : Section) (newVal : Option String) : Section :=
  if s.outcome ≠ newVal then { s with outcome := newVal, hookCount := s.hookCount + 1 } else s

/-- Setter for plotlineNotes. -/
def Section.setPlotlineNotes (s : Section) (newVal : Option (List (String × String))) : Section :=
  if s.plotlineNotes ≠ newVal then
    { s with plotlineNotes := newVal, hookCount := s.hookCount + 1 }
  else s

/-- Setter for the date property.  On a changed value: a falsy value
(None or the empty string) clears date, weekDay and localeDate and
fires the hook; an unparsable ISO date makes the setter return without
any change (the bare except swallows the ValueError); a valid ISO date
stores the string together with the derived weekday and locale
rendering and fires the hook. -/
def Section.setDate (s : Section) (newVal : Option String) : Section :=
  if s.date ≠ newVal then
    if newVal = none ∨ newVal = some "" then
      { s with date := none, weekDay := none, localeDate := none,
               hookCount := s.hookCount + 1 }
    else
      match newVal with
      | some v =>
        match isoDateParse v with
        | none => s
        | some d =>
          { s with weekDay := some (pyWeekday d), localeDate := some (localeRender d),
                   date := some v, hookCount := s.hookCount + 1 }
      | none => s
  else s

/-- Setter for the time property: no validation, plain assignment. -/
def Section.setTime (s : Section) (newVal : Option String) : Section :=
  if s.time ≠ newVal then { s with time := newVal, hookCount := s.hookCount + 1 } else s

/-- Setter for the day property: no validation, plain assignment. -/
def Section.setDay (s : Section) (newVal : Option String) : Section :=
  if s.day ≠ newVal then { s with day := newVal, hookCount := s.hookCount + 1 } else s

/-- Setter for lastsMinutes. -/
def Section.setLastsMinutes (s : Section) (newVal : Option String) : Section :=
  if s.lastsMinutes ≠ newVal then
    { s with lastsMinutes := newVal, hookCount := s.hookCount + 1 }
  else s

/-- Setter for lastsHours. -/
def Section.setLastsHours (s : Section) (newVal : Option String) : Section :=
  if s.lastsHours ≠ newVal then
    { s with lastsHours := newVal, hookCount := s.hookCount + 1 }
  else s

/-- Setter for lastsDays. -/
def Section.setLastsDays (s : Section) (newVal : Option String) : Section :=
  if s.lastsDays ≠ newVal then
    { s with lastsDays := newVal, hookCount := s.hookCount + 1 }
  else s

/-- Setter for characters. -/
def Section.setCharacters (s : Section) (newVal : Option (List String)) : Section :=
  if s.characters ≠ newVal then
    { s with characters := newVal, hookCount := s.hookCount + 1 }
  else s

/-- Setter for locations. -/
def Section.setLocations (s : Section) (newVal : Option (List String)) : Section :=
  if s.locations ≠ newVal then
    { s with locations := newVal, hookCount := s.hookCount + 1 }
  else s

/-- Setter for items. -/
def Section.setItems (s : Section) (newVal : Option (List String)) : Section :=
  if s.items ≠ newVal then { s with items := newVal, hookCount := s.hookCount + 1 } else s

/-- Setter for sectionContent: on a changed value the word count is
recomputed (0 for None) and the hook fires once. -/
def Section.setSectionContent (s : Section) (text : Option String) : Section :=
  if s.sectionContent ≠ text then
    match text with
    | some t =>
      { s with sectionContent := some t, wordCount := countWords t,
               hookCount := s.hookCount + 1 }
    | none => { s with sectionContent := none, wordCount := 0, hookCount := s.hookCount + 1 }
  else s

/-! ## Front-matter metadata (BasicElement.from_yaml helpers) -/

/-- Replace the value stored under a key in an association list, or
append the binding, modelling a Python dict update. -/
def updateAssoc (m : List (String × String)) (k v : String) : List (String × String) :=
  if m.any (fun p => p.1 = k) then m.map (fun p => if p.1 = k then (k, v) else p)
  else m ++ [(k, v)]

/-- Dictionary lookup with default None, modelling dict.get. -/
def mdGet (m : List (String × String)) (k : String) : Option String :=
  (m.find? (fun p => p.1 = k)).map Prod.snd

/-- Build the metadata dictionary of BasicElement.from_yaml: split each
entry at the first colon, strip both sides; entries without a colon
raise inside the per-entry try and are skipped; later entries
overwrite earlier ones. -/
def metaDict (yaml : List String) : List (String × String) :=
  yaml.foldl (fun acc entry =>
    match pySplit entry ":" with
    | [] => acc
    | [_] => acc
    | k :: rest => updateAssoc acc (pyStrip k) (pyStrip (pyJoin ":" rest))) []

/-- Truthiness of an optional int, as Python sees it. -/
def optIntTruthy : Option Int → Bool
  | some v => v ≠ 0
  | none => false

/-- Truthiness of an optional bool, as Python sees it. -/
def optBoolTruthy : Option Bool → Bool
  | some b => b
  | none => false

/-- Truthiness of an optional string, as Python sees it. -/
def optStrTruthy : Option String → Bool
  | some s => s ≠ ""
  | none => false

/-- Integer value of a decimal string already guarded to be parsable
(the int() call of the source under an enum-membership guard). -/
def strToInt (s : String) : Int := (intParse s).getD 0

/-! ## The Chapter entity (class Chapter of the source) -/

structure Chapter where
  title : Option String := none
  desc : Option String := none
  notes : Option String := none
  links : List (String × Option String) := []
  chLevel : Option Int := none
  chType : Option Int := none
  noNumber : Option Bool := none
  isTrash : Option Bool := none
  hookCount : Nat := 0
deriving DecidableEq, Repr

/-- Setter for a chapter title (BasicElement.title). -/
def Chapter.setTitle (ch : Chapter) (newVal : Option String) : Chapter :=
  if ch.title ≠ newVal then { ch with title := newVal, hookCount := ch.hookCount + 1 } else ch

/-- Setter for a chapter desc (BasicElement.desc). -/
def Chapter.setDesc (ch : Chapter) (newVal : Option String) : Chapter :=
  if ch.desc ≠ newVal then { ch with desc := newVal, hookCount := ch.hookCount + 1 } else ch

/-- Setter for chapter notes (BasicElementNotes.notes). -/
def Chapter.setNotes (ch : Chapter) (newVal : Option String) : Chapter :=
  if ch.notes ≠ newVal then { ch with notes := newVal, hookCount := ch.hookCount + 1 } else ch

/-- Setter for chapter links (BasicElement.links). -/
def Chapter.setLinks (ch : Chapter) (newVal : List (String × Option String)) : Chapter :=
  if ch.links ≠ newVal then { ch with links := newVal, hookCount := ch.hookCount + 1 } else ch

/-- Setter for chLevel. -/
def Chapter.setChLevel (ch : Chapter) (newVal : Option Int) : Chapter :=
  if ch.chLevel ≠ newVal then { ch with chLevel := newVal, hookCount := ch.hookCount + 1 } else ch

/-- Setter for chType. -/
def Chapter.setChType (ch : Chapter) (newVal : Option Int) : Chapter :=
  if ch.chType ≠ newVal then { ch with chType := newVal, hookCount := ch.hookCount + 1 } else ch

/-- Setter for noNumber. -/
def Chapter.setNoNumber (ch : Chapter) (newVal : Option Bool) : Chapter :=
  if ch.noNumber ≠ newVal then
    { ch with noNumber := newVal, hookCount := ch.hookCount + 1 }
  else ch

/-- Setter for isTrash. -/
def Chapter.setIsTrash (ch : Chapter) (newVal : Option Bool) : Chapter :=
  if ch.isTrash ≠ newVal then { ch with isTrash := newVal, hookCount := ch.hookCount + 1 } else ch

/-- Chapter.from_yaml: title via the inherited BasicElement.from_yaml,
then type (out-of-range values default to 1), level (1 only when the
stored value is the string 1, else 2), isTrash and noNumber flags. -/
def Chapter.from_yaml (ch : Chapter) (yaml : List String) : Chapter :=
  let md := metaDict yaml
  let ch := ch.setTitle (mdGet md "Title")
  let typeStr := (mdGet md "type").getD "0"
  let ch := if typeStr = "0" ∨ typeStr = "1"
    then ch.setChType (some (strToInt typeStr)) else ch.setChType (some 1)
  let ch := if mdGet md "level" = some "1"
    then ch.setChLevel (some 1) else ch.setChLevel (some 2)
  let ch := ch.setIsTrash (some (mdGet md "isTrash" = some "1"))
  ch.setNoNumber (some (mdGet md "noNumber" = some "1"))

/-- Chapter.to_yaml: Title line (BasicElement.to_yaml), then type when
truthy, a level: 1 line for parts, and the isTrash/noNumber flags. -/
def Chapter.to_yaml (ch : Chapter) : List String :=
  let yaml : List String :=
    if optStrTruthy ch.title then ["Title: " ++ ch.title.getD ""] else []
  let yaml := if optIntTruthy ch.chType
    then yaml ++ ["type: " ++ toString (ch.chType.getD 0)] else yaml
  let yaml := if ch.chLevel = some 1 then yaml ++ ["level: 1"] else yaml
  let yaml := if optBoolTruthy ch.isTrash then yaml ++ ["isTrash: 1"] else yaml
  if optBoolTruthy ch.noNumber then yaml ++ ["noNumber: 1"] else yaml

/-! ## Markdown sanitizing and mdnov block writing -/

/-- Single pass replacing a newline followed by three dashes with a
newline and three question marks (the first while loop of
sanitize_markdown; one pass reaches the fixed point because the
replacement cannot create a new match). -/
def subNlTripleDash : List Char → List Char
  | '\n' :: '-' :: '-' :: '-' :: rest => '\n' :: '?' :: '?' :: '?' :: subNlTripleDash rest
  | c :: rest => c :: subNlTripleDash rest
  | [] => []

/-- Replace each double at-sign with two question marks. -/
def subAtAt : List Char → List Char
  | '@' :: '@' :: rest => '?' :: '?' :: subAtAt rest
  | c :: rest => c :: subAtAt rest
  | [] => []

/-- Replace each double percent sign with two question marks. -/
def subPctPct : List Char → List Char
  | '%' :: '%' :: rest => '?' :: '?' :: subPctPct rest
  | c :: rest => c :: subPctPct rest
  | [] => []

/-- Run-collapsing scanner: the flag records whether the previously
emitted character was a newline, in which case further newlines are
dropped. -/
def collapseNlAux : Bool → List Char → List Char
  | _, [] => []
  | prevNl, c :: rest =>
    if c = '\n' then
      if prevNl then collapseNlAux true rest
      else '\n' :: collapseNlAux true rest
    else c :: collapseNlAux false rest

/-- Collapse every run of newlines to a single newline (the fixed
point of the while loop replacing double newlines by single ones). -/
def collapseNl (l : List Char) : List Char := collapseNlAux false l

/-- Replace each newline by two newlines. -/
def expandNl : List Char → List Char
  | '\n' :: rest => '\n' :: '\n' :: expandNl rest
  | c :: rest => c :: expandNl rest
  | [] => []

/-- sanitize_markdown of the source: defuse front-matter delimiters and
block and span openers, collapse blank lines, then rewrite line breaks
to blank-line-separated paragraphs and strip. -/
def sanitize_markdown (text : String) : String :=
  pyStrip (String.mk (expandNl (collapseNl (subPctPct (subAtAt (subNlTripleDash text.data))))))

/-- MdnovFile._add_key: an empty key or falsy text yields the empty
string, otherwise a span opener line with the sanitized text. -/
def add_key (text : Option String) (key : String) : String :=
  if key = "" then ""
  else match text with
    | none => ""
    | some t => if t = "" then "" else "%%" ++ key ++ ":\n\n" ++ sanitize_markdown t ++ "\n\n"

/-- Hex digit character for percent-encoding. -/
def hexDigit (n : Nat) : Char := "0123456789ABCDEF".data.getD n '0'

/-- Model of urllib quote with safe slash: percent-encode every
character outside the unreserved set (modelled for the Latin-1 range;
the inputs of this development are ASCII). -/
def pyQuote (s : String) : String :=
  String.mk (s.data.flatMap (fun c =>
    if c.isAlphanum ∨ c = '_' ∨ c = '.' ∨ c = '-' ∨ c = '~' ∨ c = '/' then [c]
    else if c.toNat < 256 then ['%', hexDigit (c.toNat / 16), hexDigit (c.toNat % 16)]
    else [c]))

/-- Hex digit value for percent-decoding. -/
def hexVal (c : Char) : Option Nat :=
  if c.isDigit then some (c.toNat - 48)
  else if 'a' ≤ c ∧ c ≤ 'f' then some (c.toNat - 87)
  else if 'A' ≤ c ∧ c ≤ 'F' then some (c.toNat - 55)
  else none

/-- Model of urllib unquote: decode percent-escapes (single-byte
model; the inputs of this development are ASCII). -/
def pyUnquote : List Char → List Char
  | '%' :: a :: b :: rest =>
    (match hexVal a, hexVal b with
     | some x, some y => Char.ofNat (16 * x + y) :: pyUnquote rest
     | _, _ => '%' :: pyUnquote (a :: b :: rest))
  | c :: rest => c :: pyUnquote rest
  | [] => []

/-- BasicElement.get_links: render each stored link pair as a
LinkPath line and, when a full path is stored, a FullPath line. -/
def get_links (links : List (String × Option String)) : List (String × String) :=
  links.map (fun p =>
    let rel := "[LinkPath](" ++ pyQuote p.1 ++ ")"
    let abs := match p.2 with
      | some fp => if fp ≠ "" then "[FullPath](file:///" ++ pyQuote fp ++ ")" else ""
      | none => ""
    (rel, abs))

/-- MdnovFile._add_links: the Link spans of a block, joined by blank
lines, with a trailing newline. -/
def links_repr (links : List (String × Option String)) : String :=
  let lr := (get_links links).foldl (fun acc p => acc ++ ["%%Link:", p.1, p.2]) []
  pyJoin "\n\n" lr ++ "\n"

/-- The filled-in chapter template of MdnovFile (_chapterTemplate with
the mapping built by MdnovFile._get_chapterMapping).  Note that the
source maps the Notes placeholder from element.desc, not
element.notes. -/
def mdnov_chapter_text (chId : String) (ch : Chapter) : String :=
  "\n@@" ++ chId ++ "\n    \n---\n" ++
  pyJoin "\n" ch.to_yaml ++
  "\n---\n\n" ++
  links_repr ch.links ++
  add_key ch.desc "Desc" ++
  add_key ch.desc "Notes" ++
  "\n%%\n\n"

/-! ## The mdnov block reader (MdnovFile._read_element) -/

/-- Reader state threaded through the line loop: the active span tag,
the collected lines, the pending plot-line id and the word-count log
(file-level state of MdnovFile). -/
structure MdReadState where
  range : Option String := none
  collected : List String := []
  plId : Option String := none
  wcLog : List (String × String × String) := []
deriving DecidableEq, Repr

/-- Replace or append a word-count log entry. -/
def updateWcLog (m : List (String × String × String)) (k : String) (v : String × String) :
    List (String × String × String) :=
  if m.any (fun p => p.1 = k) then m.map (fun p => if p.1 = k then (k, v) else p)
  else m ++ [(k, v)]

/-- MdnovFile._set_word_count: parse dash-prefixed
date;count;totalCount lines into the log; a line with fewer than
three fields raises IndexError. -/
def set_word_count (wcLog : List (String × String × String)) (text : String) :
    Except String (List (String × String × String)) :=
  (pySplit text "\n").foldlM (fun log line =>
    if line = "" then .ok log
    else
      let wc := pySplit (stripSet ['-', ' '] line) ";"
      match wc.get? 0, wc.get? 1, wc.get? 2 with
      | some a, some b, some c => .ok (updateWcLog log a (b, c))
      | _, _, _ => .error "IndexError: word count entry") wcLog

/-- MdnovFile._set_links, parsing phase: alternate LinkPath and
FullPath lines into pairs; a nonempty line without exactly one
bracket-paren separator raises ValueError on unpacking. -/
def parse_link_lines : List String → List (String × String) → String → String →
    Except String (List (String × String))
  | [], acc, _, _ => .ok acc
  | line :: rest, acc, rel, asb =>
    if line = "" then parse_link_lines rest acc rel asb
    else
      match pySplit line "](" with
      | [lt, lk] =>
        if lt = "[LinkPath" then parse_link_lines rest acc (stripSet [')', ' '] lk) asb
        else if lt = "[FullPath" then
          let a := stripSet [')', ' '] lk
          if rel ≠ "" then parse_link_lines rest (acc ++ [(rel, a)]) "" ""
          else parse_link_lines rest acc "" ""
        else parse_link_lines rest acc rel asb
      | _ => .error "ValueError: unpacking link line"

/-- Replace or append a link binding. -/
def updateLinks (m : List (String × Option String)) (k : String) (v : Option String) :
    List (String × Option String) :=
  if m.any (fun p => p.1 = k) then m.map (fun p => if p.1 = k then (k, v) else p)
  else m ++ [(k, v)]

/-- BasicElement.set_links: store each parsed pair after unquoting;
the absolute link must contain the file scheme marker, otherwise the
index access raises IndexError. -/
def set_links_apply (links : List (String × Option String)) (linkList : List (String × String)) :
    Except String (List (String × Option String)) :=
  linkList.foldlM (fun ls p =>
    match (pySplit (String.mk (pyUnquote p.2.data)) "file:///").get? 1 with
    | none => .error "IndexError: no file scheme"
    | some fp => .ok (updateLinks ls (String.mk (pyUnquote p.1.data)) (some fp))) links

/-- The per-span property table installed by MdnovFile._read_chapter. -/
def chapterProps (key : String) : Option (Chapter → String → Chapter) :=
  if key = "Desc" then some (fun ch t => ch.setDesc (some t))
  else if key = "Notes" then some (fun ch t => ch.setNotes (some t))
  else none

/-- MdnovFile._read_element specialised to a chapter element: toggle
front-matter collection on three-dash lines (parsing it on close),
flush the collected span on a double-percent line and dispatch it by
the active tag, otherwise collect the line when a span is open. -/
def chapter_read_element (st : MdReadState) (ch : Chapter) (line : String) :
    Except String (MdReadState × Chapter) :=
  if pyStartsWith line "---" then
    if st.range ≠ some "yaml" then
      .ok ({ st with range := some "yaml", collected := [] }, ch)
    else
      .ok ({ st with range := none }, ch.from_yaml st.collected)
  else if pyStartsWith line "%%" then
    let flushed : Except String (MdReadState × Chapter) :=
      match st.range with
      | none => .ok (st, ch)
      | some r =>
        let text := pyStrip (pyJoin "\n" st.collected)
        match chapterProps r with
        | some setter => .ok ({ st with plId := none }, setter ch (text ++ "\n"))
        | none =>
          if r = "Plotline" then .ok ({ st with plId := some text }, ch)
          else if r = "Plotline note" ∧ st.plId ≠ none then
            .error "AttributeError: chapter has no plotlineNotes"
          else if r = "Link" then
            (parse_link_lines (pySplit text "\n") [] "" "").bind (fun ll =>
              (set_links_apply ch.links ll).map (fun ls => (st, ch.setLinks ls)))
          else if r = "Progress" then
            (set_word_count st.wcLog text).map (fun log => ({ st with wcLog := log }, ch))
          else .ok (st, ch)
    flushed.bind (fun p =>
      let tag := stripSet ['%', ':', ' '] line
      let newRange := if tag ≠ "" then some tag else p.1.range
      .ok ({ p.1 with collected := [], range := newRange }, p.2))
  else
    match st.range with
    | some _ => .ok ({ st with collected := st.collected ++ [line] }, ch)
    | none => .ok (st, ch)

/-- The read() line loop restricted to chapter blocks: a chapter
header line starts a fresh Chapter, every further line goes through
the chapter processor; the last chapter read is returned. -/
def mdnov_read_chapter_lines : List String → MdReadState → Option Chapter →
    Except String (Option Chapter)
  | [], _, cur => .ok cur
  | line :: rest, st, cur =>
    if pyStartsWith line "@@ch" then
      mdnov_read_chapter_lines rest st (some {})
    else
      match cur with
      | none => mdnov_read_chapter_lines rest st none
      | some ch =>
        match chapter_read_element st ch line with
        | .ok (st1, ch1) => mdnov_read_chapter_lines rest st1 (some ch1)
        | .error e => .error e

/-- Full mdnov write-read cycle for a single chapter block. -/
def mdnov_chapter_roundtrip (chId : String) (ch : Chapter) : Except String (Option Chapter) :=
  mdnov_read_chapter_lines (pySplit (mdnov_chapter_text chId ch) "\n") {} none

/-- Project the notes of the chapter resulting from a successful
single-chapter roundtrip. -/
def roundtrip_chapter_notes (chId : String) (ch : Chapter) : Option (Option String) :=
  match mdnov_chapter_roundtrip chId ch with
  | .ok (some out) => some out.notes
  | _ => none

/-! ## Section front matter (Section.from_yaml) -/

/-- Python truthiness of the stored date (the test not-self-date). -/
def Section.dateFalsy (s : Section) : Bool :=
  match s.date with
  | none => true
  | some d => d = ""

/-- Head of Section.from_yaml: the inherited title and tags
assignments, then the enum fields with their fallback defaults and
the append flag (everything before the date). -/
def Section.from_yaml_head (s : Section) (md : List (String × String)) : Section :=
  let s := s.setTitle (mdGet md "Title")
  let s := s.setTags (some ((string_to_list (mdGet md "Tags") ";").map pyStrip))
  let typeStr := (mdGet md "type").getD "0"
  let s := if typeStr = "0" ∨ typeStr = "1" ∨ typeStr = "2" ∨ typeStr = "3"
    then s.setScType (some (strToInt typeStr)) else s.setScType (some 1)
  let statusV := mdGet md "status"
  let s := if statusV = some "2" ∨ statusV = some "3" ∨ statusV = some "4" ∨ statusV = some "5"
    then s.setStatus (statusV.map strToInt) else s.setStatus (some 1)
  let sceneV := mdGet md "scene"
  let s := if sceneV = some "1" ∨ sceneV = some "2" ∨ sceneV = some "3"
    then s.setScene (sceneV.map strToInt) else s.setScene (some 0)
  let s := if s.scene = some 0 then
      (let sceneKind := mdGet md "pacing"
       if sceneKind = some "1" ∨ sceneKind = some "2"
        then s.setScene (sceneKind.map (fun v => strToInt v + 1)) else s)
    else s
  s.setAppendToPrev (some (mdGet md "append" = some "1"))

/-- Date and day assignments of Section.from_yaml: the date comes
from the verified Date value (whose ValueError propagates) and the
day is assigned only when no date was obtained. -/
def Section.from_yaml_dateday (s : Section) (md : List (String × String)) :
    Except String Section := do
  let dv ← verified_date (mdGet md "Date")
  let s := s.setDate dv
  if s.dateFalsy then do
    let dayv ← verified_int_string (mdGet md "Day")
    pure (s.setDay dayv)
  else pure s

/-- Tail of Section.from_yaml: the verified time, the verified
duration components, and the reference lists. -/
def Section.from_yaml_tail (s : Section) (md : List (String × String)) :
    Except String Section := do
  let tv ← verified_time (mdGet md "Time")
  let s := s.setTime tv
  let ldv ← verified_int_string (mdGet md "LastsDays")
  let s := s.setLastsDays ldv
  let lhv ← verified_int_string (mdGet md "LastsHours")
  let s := s.setLastsHours lhv
  let lmv ← verified_int_string (mdGet md "LastsMinutes")
  let s := s.setLastsMinutes lmv
  let s := s.setCharacters (some (string_to_list (mdGet md "Characters") ";"))
  let s := s.setLocations (some (string_to_list (mdGet md "Locations") ";"))
  pure (s.setItems (some (string_to_list (mdGet md "Items") ";")))

/-- Section.from_yaml, assembled from its three source regions; any
ValueError raised by a verified value propagates as an error. -/
def Section.from_yaml (s : Section) (yaml : List String) : Except String Section := do
  let md := metaDict yaml
  let s := s.from_yaml_head md
  let s ← s.from_yaml_dateday md
  s.from_yaml_tail md

/-! ## The mdnov section-block reader -/

/-- The per-span property table installed by MdnovFile._read_section. -/
def sectionProps (key : String) : Option (Section → String → Section) :=
  if key = "Desc" then some (fun s t => s.setDesc (some t))
  else if key = "Notes" then some (fun s t => s.setNotes (some t))
  else if key = "Goal" then some (fun s t => s.setGoal (some t))
  else if key = "Conflict" then some (fun s t => s.setConflict (some t))
  else if key = "Outcome" then some (fun s t => s.setOutcome (some t))
  else if key = "Content" then some (fun s t => s.setSectionContent (some t))
  else none

/-- Replace or append a plot-line note binding. -/
def updatePlNotes (m : List (String × String)) (k v : String) : List (String × String) :=
  if m.any (fun p => p.1 = k) then m.map (fun p => if p.1 = k then (k, v) else p)
  else m ++ [(k, v)]

/-- MdnovFile._read_element specialised to a section element
(_read_section first ensures plotlineNotes is a dictionary, then
processes the line). -/
def section_read_element (st : MdReadState) (s0 : Section) (line : String) :
    Except String (MdReadState × Section) :=
  let s := if s0.plotlineNotes = none then s0.setPlotlineNotes (some []) else s0
  if pyStartsWith line "---" then
    if st.range ≠ some "yaml" then
      .ok ({ st with range := some "yaml", collected := [] }, s)
    else
      (s.from_yaml st.collected).map (fun s1 => ({ st with range := none }, s1))
  else if pyStartsWith line "%%" then
    let flushed : Except String (MdReadState × Section) :=
      match st.range with
      | none => .ok (st, s)
      | some r =>
        let text := pyStrip (pyJoin "\n" st.collected)
        match sectionProps r with
        | some setter => .ok ({ st with plId := none }, setter s (text ++ "\n"))
        | none =>
          if r = "Plotline" then .ok ({ st with plId := some text }, s)
          else if r = "Plotline note" ∧ st.plId ≠ none then
            match st.plId with
            | some pl =>
              let plNotes := s.plotlineNotes.getD []
              .ok ({ st with plId := none },
                   s.setPlotlineNotes (some (updatePlNotes plNotes pl text)))
            | none => .ok (st, s)
          else if r = "Link" then
            (parse_link_lines (pySplit text "\n") [] "" "").bind (fun ll =>
              (set_links_apply s.links ll).map (fun ls => (st, s.setLinks ls)))
          else if r = "Progress" then
            (set_word_count st.wcLog text).map (fun log => ({ st with wcLog := log }, s))
          else .ok (st, s)
    flushed.bind (fun p =>
      let tag := stripSet ['%', ':', ' '] line
      let newRange := if tag ≠ "" then some tag else p.1.range
      .ok ({ p.1 with collected := [], range := newRange }, p.2))
  else
    match st.range with
    | some _ => .ok ({ st with collected := st.collected ++ [line] }, s)
    | none => .ok (st, s)

/-- The read() line loop restricted to section blocks: a section
header line starts a fresh Section, every further line goes through
the section processor; the last section read is returned, and any
raised ValueError aborts the loop. -/
def mdnov_read_section_lines : List String → MdReadState → Option Section →
    Except String (Option Section)
  | [], _, cur => .ok cur
  | line :: rest, st, cur =>
    if pyStartsWith line "@@sc" then
      mdnov_read_section_lines rest st (some Section.new)
    else
      match cur with
      | none => mdnov_read_section_lines rest st none
      | some s =>
        match section_read_element st s line with
        | .ok (st1, s1) => mdnov_read_section_lines rest st1 (some s1)
        | .error e => .error e

/-- Project date and day out of a successful section-block read. -/
def read_section_dateday (lines : List String) : Option (Option String × Option String) :=
  match mdnov_read_section_lines lines {} none with
  | .ok (some out) => some (out.date, out.day)
  | _ => none

/-- Project the raised error out of a section-block read, none on
success. -/
def read_section_outcome (lines : List String) : Option String :=
  match mdnov_read_section_lines lines {} none with
  | .ok _ => none
  | .error e => some e

/-! ## The novx section reader, date and day branch -/

/-- The Date/Day branch of NovxFile._read_section.  An element
argument is none when the XML element is absent, and some text (the
text itself being optional) when present.  A Date parse failure is
swallowed by the bare except (date set to None); a Day element whose
text is None raises TypeError, which the except-ValueError handler
does not catch. -/
def novx_read_dateday (s : Section) (dateElem dayElem : Option (Option String)) :
    Except String Section :=
  match dateElem with
  | some dateStr =>
    (match dateStr with
     | some ds =>
       if (isoDateParse ds).isSome then .ok (s.setDate (some ds))
       else .ok (s.setDate none)
     | none => .ok (s.setDate none))
  | none =>
    match dayElem with
    | some dayStr =>
      (match dayStr with
       | some d =>
         if (intParse d).isSome then .ok (s.setDay (some d))
         else .ok (s.setDay none)
       | none => .error "TypeError: int() argument must not be None")
    | none => .ok s

/-! ## adjust_section_types (shared by MdnovFile and NovxFile) -/

/-- Chapter view used by adjust_section_types: the level, type and
trash flag together with the types of the sections it owns (all
populated with concrete values, as after a read pass). -/
structure AdjChapter where
  chLevel : Int
  chType : Int
  isTrash : Bool
  scTypes : List Int
deriving DecidableEq, Repr

/-- Loop body of adjust_section_types: a part records its type as the
running partType; a non-part chapter under a nonzero partType that is
not trash inherits it; every chapter then raises each of its sections
to at least the chapter type. -/
def adjust_loop : Int → List AdjChapter → List AdjChapter
  | _, [] => []
  | partType, ch :: rest =>
    let partType1 := if ch.chLevel = 1 then ch.chType else partType
    let ch1 := if ch.chLevel = 1 then ch
      else if partType ≠ 0 ∧ ¬ ch.isTrash then { ch with chType := partType } else ch
    let ch2 := { ch1 with
      scTypes := ch1.scTypes.map (fun t => if t < ch1.chType then ch1.chType else t) }
    ch2 :: adjust_loop partType1 rest

/-- adjust_section_types over the chapter list in tree order. -/
def adjust_section_types (chapters : List AdjChapter) : List AdjChapter :=
  adjust_loop 0 chapters

/-- The partType accumulator value after a chapter list has been
processed. -/
def foldPartType (p : Int) (cs : List AdjChapter) : Int :=
  cs.foldl (fun a c => if c.chLevel = 1 then c.chType else a) p

/-- The effect of the adjust loop on a non-part chapter standing under
a running part type of one: a trash chapter keeps its type (its
sections still compared against that type), any other chapter takes
type one and its sections are raised to at least one. -/
def promote1 (c : AdjChapter) : AdjChapter :=
  if c.isTrash then
    { c with scTypes := c.scTypes.map (fun t => if t < c.chType then c.chType else t) }
  else
    { c with chType := 1, scTypes := c.scTypes.map (fun t => if t < 1 then 1 else t) }

/-! ## The novx version gate (NovxFile.read) -/

/-- Supported DTD major version. -/
def MAJOR_VERSION : Int := 1

/-- Supported DTD minor version. -/
def MINOR_VERSION : Int := 4

/-- Version attribute parsing in NovxFile.read: the attribute must
split at the dot into exactly two int()-parsable parts, otherwise the
except turns the failure into the no-valid-version Error. -/
def parse_version (attr : String) : Except String (Int × Int) :=
  match pySplit attr "." with
  | [majS, minS] =>
    (match intParse majS, intParse minS with
     | some a, some b => .ok (a, b)
     | _, _ => .error "No valid version found in file")
  | _ => .error "No valid version found in file"

/-- The three version comparisons of NovxFile.read, in source order. -/
def version_gate (majorVersion minorVersion : Int) : Except String Unit :=
  if majorVersion > MAJOR_VERSION then .error "created with a newer novelibre version"
  else if majorVersion < MAJOR_VERSION then .error "created with an outdated novelibre version"
  else if minorVersion > MINOR_VERSION then .error "created with a newer novelibre version"
  else .ok ()

/-- NovxFile.read up to the version gate: parse the version attribute
and apply the gate; only on success is the model populated (the body
stands for everything the rest of the read produces). -/
def novx_read_gate {α : Type} (versionAttr : String) (body : α) : Except String α := do
  let v ← parse_version versionAttr
  let _ ← version_gate v.1 v.2
  pure body

/-! ## The ordered tree index (class NvTree) -/

/-- Association-list lookup for the tree maps. -/
def lookupL (m : List (String × List String)) (k : String) : Option (List String) :=
  (m.find? (fun p => p.1 = k)).map Prod.snd

/-- Association-list update for the tree maps. -/
def updateL (m : List (String × List String)) (k : String) (v : List String) :
    List (String × List String) :=
  if m.any (fun p => p.1 = k) then m.map (fun p => if p.1 = k then (k, v) else p)
  else m ++ [(k, v)]

/-- The tree index: six fixed root lists, the per-chapter section
lists and the per-plot-line point lists. -/
structure NvTree where
  roots : List (String × List String)
  srtSections : List (String × List String)
  srtTurningPoints : List (String × List String)
deriving DecidableEq, Repr

/-- A freshly constructed NvTree with the six empty roots. -/
def NvTree.init : NvTree :=
  { roots := [("rtch", []), ("rtcr", []), ("rtlc", []), ("rtit", []), ("rtac", []), ("rtpn", [])],
    srtSections := [], srtTurningPoints := [] }

/-- NvTree.append: append to a root list (registering a fresh
sub-list for chapters and plot lines), or dispatch by ID prefix to
the section or plot-point map; an unknown parent without either
prefix falls through without any effect. -/
def NvTree.append (t : NvTree) (parent iid : String) : NvTree :=
  match lookupL t.roots parent with
  | some l =>
    let t1 := { t with roots := updateL t.roots parent (l ++ [iid]) }
    if parent = "rtch" then { t1 with srtSections := updateL t1.srtSections iid [] }
    else if parent = "rtac" then
      { t1 with srtTurningPoints := updateL t1.srtTurningPoints iid [] }
    else t1
  | none =>
    if pyStartsWith parent "ch" then
      match lookupL t.srtSections parent with
      | some l => { t with srtSections := updateL t.srtSections parent (l ++ [iid]) }
      | none => { t with srtSections := updateL t.srtSections parent [iid] }
    else if pyStartsWith parent "ac" then
      match lookupL t.srtTurningPoints parent with
      | some l =>
        { t with srtTurningPoints := updateL t.srtTurningPoints parent (l ++ [iid]) }
      | none => { t with srtTurningPoints := updateL t.srtTurningPoints parent [iid] }
    else t

/-- NvTree.get_children: the root list for a root tag, the section
list (empty default) for a chapter-prefixed item, the plot-point list
(empty default) for a plot-line-prefixed item; any other item falls
off the end of the function, which in Python returns None - hence the
optional result. -/
def NvTree.get_children (t : NvTree) (item : String) : Option (List String) :=
  match lookupL t.roots item with
  | some l => some l
  | none =>
    if pyStartsWith item "ch" then some ((lookupL t.srtSections item).getD [])
    else if pyStartsWith item "ac" then some ((lookupL t.srtTurningPoints item).getD [])
    else none

/-! ## Write backup discipline (claim C9) -/

/-- Exception kinds distinguished on the write path: the converter's
own Error class versus the interpreter's OSError. -/
inductive PyExc
  | osError
  | customError
deriving DecidableEq, Repr

/-- Destination and backup file contents; none means the file is
absent. -/
structure FS where
  dest : Option String := none
  bak : Option String := none
deriving DecidableEq, Repr

/-- Outcome of the underlying file write call: success with the full
serialized content, or an I/O failure (an OSError) that leaves
partial content in the destination. -/
inductive TreeWriteOutcome
  | success (content : String)
  | ioFailure (partialContent : String)
deriving DecidableEq, Repr

/-- Result of a write invocation: the final file system state plus
the exception that propagated, if any. -/
structure WriteResult where
  fs : FS
  exc : Option PyExc
deriving DecidableEq, Repr

/-- NovxFile._write_element_tree: an existing destination is renamed
to the backup path; then the ElementTree writer runs.  The handler
around it reads except-Error, naming the converter's own Error class,
so an OSError raised by a failing write is not caught: the backup is
not restored and the OSError propagates with partial content left in
the destination. -/
def novx_write_element_tree (fs : FS) (outcome : TreeWriteOutcome) : WriteResult :=
  let backed : FS := if fs.dest.isSome then { dest := none, bak := fs.dest } else fs
  match outcome with
  | .success c => { fs := { backed with dest := some c }, exc := none }
  | .ioFailure p => { fs := { backed with dest := some p }, exc := some .osError }

/-- FileExport.write (the mdnov writer): same backup step, but the
bare except restores the backup over the destination on any failure
and re-raises the converter's Error. -/
def fileExport_write (fs : FS) (outcome : TreeWriteOutcome) : WriteResult :=
  let backedUp := fs.dest.isSome
  let backed : FS := if fs.dest.isSome then { dest := none, bak := fs.dest } else fs
  match outcome with
  | .success c => { fs := { backed with dest := some c }, exc := none }
  | .ioFailure _ =>
    if backedUp then { fs := { dest := backed.bak, bak := none }, exc := some .customError }
    else { fs := backed, exc := some .customError }

/-- A concrete chapter whose desc and notes differ, exercising the
chapter write-read cycle. -/
def c1_input : Chapter :=
  { title := some "T", desc := some "A\n", notes := some "B\n",
    chLevel := some 2, chType := some 0, isTrash := some false, noNumber := some false }

/-! ## Theorems -/

/-! ### Claim C1: write-then-read round trip -/

/-- Claim C1 failing-input evaluation: writing a chapter whose notes
field is the string B and desc field the string A to mdnov and reading
it back yields notes equal to A (the desc), because
MdnovFile._get_chapterMapping fills the Notes placeholder from
element.desc; the chapter notes field does not round-trip. -/
theorem c1_mdnov_chapter_notes_bug :
    roundtrip_chapter_notes "ch0001" c1_input = some (some "A\n") ∧
    c1_input.notes = some "B\n" := by
  decide

/-! ### Shared helper lemmas -/

/-- A bind on Except yields ok exactly when both stages yield ok. -/
theorem except_bind_ok {ε α β : Type} {e : Except ε α} {f : α → Except ε β} {b : β} :
    (e >>= f) = .ok b ↔ ∃ a, e = .ok a ∧ f a = .ok b := by
  cases e <;> simp [Bind.bind, Except.bind]

/-- A bind after ok runs the continuation. -/
theorem except_ok_bind {ε α β : Type} (a : α) (f : α → Except ε β) :
    ((Except.ok a : Except ε α) >>= f) = f a := rfl

/-- A bind after error keeps the error. -/
theorem except_error_bind {ε α β : Type} (e : ε) (f : α → Except ε β) :
    ((Except.error e : Except ε α) >>= f) = .error e := rfl

/-- Pure on Except yields ok of the same value. -/
theorem except_pure_ok {ε α : Type} {a b : α} :
    (pure a : Except ε α) = .ok b ↔ a = b := by
  simp [pure, Except.pure]

/-- The date setter never touches the day field. -/
theorem Section.day_setDate (s : Section) (v : Option String) : (s.setDate v).day = s.day := by
  unfold Section.setDate
  repeat' split
  all_goals rfl

/-- The day setter never touches the date field. -/
theorem Section.date_setDay (s : Section) (v : Option String) : (s.setDay v).date = s.date := by
  unfold Section.setDay
  split <;> rfl

/-- Assigning None to the date setter always leaves the date None. -/
theorem Section.date_setDate_none (s : Section) : (s.setDate none).date = none := by
  unfold Section.setDate
  split
  · rw [if_pos (Or.inl rfl)]
  · simp_all

/-- The empty string is not a parsable ISO date. -/
theorem isoDateParse_empty : isoDateParse "" = none := by decide

/-- A string with a parse is nonempty. -/
theorem isoDateParse_ne_empty {d : String} {pd : PyDate} (h : isoDateParse d = some pd) :
    d ≠ "" := by
  intro he
  subst he
  rw [isoDateParse_empty] at h
  cases h

/-- Assigning a parsable date stores exactly that date string. -/
theorem Section.date_setDate_valid (s : Section) {d : String} {pd : PyDate}
    (h : isoDateParse d = some pd) : (s.setDate (some d)).date = some d := by
  unfold Section.setDate
  split
  · split
    · rename_i hf
      rcases hf with h1 | h1
      · cases h1
      · have hde : d = "" := by injection h1
        exact absurd hde (isoDateParse_ne_empty h)
    · simp [h]
  · simp_all

/-- A verified date that returns some value parses. -/
theorem verified_date_ok_some {x : Option String} {d : String}
    (h : verified_date x = .ok (some d)) : ∃ pd, isoDateParse d = some pd := by
  unfold verified_date at h
  cases x with
  | none => simp at h
  | some v =>
    cases hp : isoDateParse v with
    | none => simp [hp] at h
    | some pd =>
      simp [hp] at h
      subst h
      exact ⟨pd, hp⟩

/-- dateFalsy holds when the date field is None. -/
theorem Section.dateFalsy_of_none {s : Section} (h : s.date = none) : s.dateFalsy = true := by
  unfold Section.dateFalsy
  rw [h]

/-- dateFalsy fails on a parsable stored date. -/
theorem Section.dateFalsy_of_valid {s : Section} {d : String} {pd : PyDate}
    (hd : s.date = some d) (h : isoDateParse d = some pd) : s.dateFalsy = false := by
  unfold Section.dateFalsy
  rw [hd]
  simpa using isoDateParse_ne_empty h

/-- The title setter preserves date and day. -/
theorem Section.dateday_setTitle (s : Section) (v : Option String) :
    (s.setTitle v).date = s.date ∧ (s.setTitle v).day = s.day := by
  unfold Section.setTitle; split <;> exact ⟨rfl, rfl⟩

/-- The tags setter preserves date and day. -/
theorem Section.dateday_setTags (s : Section) (v : Option (List String)) :
    (s.setTags v).date = s.date ∧ (s.setTags v).day = s.day := by
  unfold Section.setTags; split <;> exact ⟨rfl, rfl⟩

/-- The scType setter preserves date and day. -/
theorem Section.dateday_setScType (s : Section) (v : Option Int) :
    (s.setScType v).date = s.date ∧ (s.setScType v).day = s.day := by
  unfold Section.setScType; split <;> exact ⟨rfl, rfl⟩

/-- The status setter preserves date and day. -/
theorem Section.dateday_setStatus (s : Section) (v : Option Int) :
    (s.setStatus v).date = s.date ∧ (s.setStatus v).day = s.day := by
  unfold Section.setStatus; split <;> exact ⟨rfl, rfl⟩

/-- The scene setter preserves date and day. -/
theorem Section.dateday_setScene (s : Section) (v : Option Int) :
    (s.setScene v).date = s.date ∧ (s.setScene v).day = s.day := by
  unfold Section.setScene; split <;> exact ⟨rfl, rfl⟩

/-- The appendToPrev setter preserves date and day. -/
theorem Section.dateday_setAppendToPrev (s : Section) (v : Option Bool) :
    (s.setAppendToPrev v).date = s.date ∧ (s.setAppendToPrev v).day = s.day := by
  unfold Section.setAppendToPrev; split <;> exact ⟨rfl, rfl⟩

/-- The time setter preserves date and day. -/
theorem Section.dateday_setTime (s : Section) (v : Option String) :
    (s.setTime v).date = s.date ∧ (s.setTime v).day = s.day := by
  unfold Section.setTime; split <;> exact ⟨rfl, rfl⟩

/-- The lastsDays setter preserves date and day. -/
theorem Section.dateday_setLastsDays (s : Section) (v : Option String) :
    (s.setLastsDays v).date = s.date ∧ (s.setLastsDays v).day = s.day := by
  unfold Section.setLastsDays; split <;> exact ⟨rfl, rfl⟩

/-- The lastsHours setter preserves date and day. -/
theorem Section.dateday_setLastsHours (s : Section) (v : Option String) :
    (s.setLastsHours v).date = s.date ∧ (s.setLastsHours v).day = s.day := by
  unfold Section.setLastsHours; split <;> exact ⟨rfl, rfl⟩

/-- The lastsMinutes setter preserves date and day. -/
theorem Section.dateday_setLastsMinutes (s : Section) (v : Option String) :
    (s.setLastsMinutes v).date = s.date ∧ (s.setLastsMinutes v).day = s.day := by
  unfold Section.setLastsMinutes; split <;> exact ⟨rfl, rfl⟩

/-- The characters setter preserves date and day. -/
theorem Section.dateday_setCharacters (s : Section) (v : Option (List String)) :
    (s.setCharacters v).date = s.date ∧ (s.setCharacters v).day = s.day := by
  unfold Section.setCharacters; split <;> exact ⟨rfl, rfl⟩

/-- The locations setter preserves date and day. -/
theorem Section.dateday_setLocations (s : Section) (v : Option (List String)) :
    (s.setLocations v).date = s.date ∧ (s.setLocations v).day = s.day := by
  unfold Section.setLocations; split <;> exact ⟨rfl, rfl⟩

/-- The items setter preserves date and day. -/
theorem Section.dateday_setItems (s : Section) (v : Option (List String)) :
    (s.setItems v).date = s.date ∧ (s.setItems v).day = s.day := by
  unfold Section.setItems; split <;> exact ⟨rfl, rfl⟩

/-- The head of Section.from_yaml touches neither date nor day. -/
theorem Section.from_yaml_head_dateday (s : Section) (md : List (String × String)) :
    (s.from_yaml_head md).date = s.date ∧ (s.from_yaml_head md).day = s.day := by
  simp only [Section.from_yaml_head]
  constructor <;>
    (split_ifs <;>
      simp [Section.dateday_setTitle, Section.dateday_setTags, Section.dateday_setScType,
        Section.dateday_setStatus, Section.dateday_setScene, Section.dateday_setAppendToPrev])

/-- The tail of Section.from_yaml touches neither date nor day. -/
theorem Section.from_yaml_tail_dateday (s : Section) (md : List (String × String))
    (out : Section) (h : s.from_yaml_tail md = .ok out) :
    out.date = s.date ∧ out.day = s.day := by
  simp only [Section.from_yaml_tail, except_bind_ok, except_pure_ok] at h
  obtain ⟨tv, _, ldv, _, lhv, _, lmv, _, hout⟩ := h
  subst hout
  simp [Section.dateday_setTime, Section.dateday_setLastsDays, Section.dateday_setLastsHours,
    Section.dateday_setLastsMinutes, Section.dateday_setCharacters,
    Section.dateday_setLocations, Section.dateday_setItems]

/-- The date-day region of Section.from_yaml never yields both a date
and a day when the incoming section has no day. -/
theorem Section.from_yaml_dateday_xor (s : Section) (md : List (String × String))
    (out : Section) (hday : s.day = none) (h : s.from_yaml_dateday md = .ok out) :
    ¬(out.date.isSome ∧ out.day.isSome) := by
  unfold Section.from_yaml_dateday at h
  cases hdv : verified_date (mdGet md "Date") with
  | error e => rw [hdv] at h; simp [Bind.bind, Except.bind] at h
  | ok dv =>
    rw [hdv] at h
    simp only [Bind.bind, Except.bind] at h
    cases dv with
    | none =>
      have hd : (s.setDate none).date = none := Section.date_setDate_none s
      simp only [Section.dateFalsy_of_none hd, if_true] at h
      cases hdayv : verified_int_string (mdGet md "Day") with
      | error e => rw [hdayv] at h; simp [Bind.bind, Except.bind] at h
      | ok dayv =>
        rw [hdayv] at h
        simp only [Bind.bind, Except.bind, pure, Except.pure, Except.ok.injEq] at h
        subst h
        intro hc
        rw [Section.date_setDay _ _, hd] at hc
        simp at hc
    | some d =>
      obtain ⟨pd, hpd⟩ := verified_date_ok_some hdv
      have hd : (s.setDate (some d)).date = some d := Section.date_setDate_valid s hpd
      simp only [Section.dateFalsy_of_valid hd hpd, Bool.false_eq_true, if_false, pure,
        Except.pure, Except.ok.injEq] at h
      subst h
      intro hc
      rw [Section.day_setDate, hday] at hc
      simp at hc

/-! ### Claim C2: date and day exclusivity at the setter level -/

/-- Claim C2 counterexample: assigning a day to a section whose date is
set does not clear the date; both fields end up set, contradicting the
claim that setting day forces date to None. -/
theorem c2_counterexample :
    ((Section.new.setDate (some "2024-07-01")).setDay (some "1")).date = some "2024-07-01" ∧
    ((Section.new.setDate (some "2024-07-01")).setDay (some "1")).day = some "1" := by
  decide

/-- Claim C2 as amended: the day setter never touches the date field
and the date setter never touches the day field; the two setters do
not clear each other (the date-XOR-day discipline is instead
established by the readers, cf. claim C10). -/
theorem c2_setters_independent (s : Section) (v : Option String) :
    (s.setDay v).date = s.date ∧ (s.setDate v).day = s.day := by
  constructor
  · unfold Section.setDay
    split <;> rfl
  · unfold Section.setDate
    repeat' split
    all_goals rfl

/-! ## Claim C4: behaviour on unparsable date and time strings -/

/-- Claim C4 counterexample: assigning the unparsable string to the
time setter silently succeeds (no validation at all), and assigning it
to the date setter silently leaves the section unchanged; neither
raises a FormatError-kind error. -/
theorem c4_counterexample :
    (Section.new.setTime (some "bogus")).time = some "bogus" ∧
    Section.new.setDate (some "bogus") = Section.new := by
  decide

/-- Claim C4 as amended: for a nonempty string that is not a parsable
ISO date, the date setter is a silent no-op (the section, including
its hook counter, is unchanged); the time setter performs no parsing
and stores any string as given. -/
theorem c4_unparsable_silent (s : Section) (v : String) :
    (v ≠ "" → isoDateParse v = none → s.setDate (some v) = s) ∧
    (s.setTime (some v)).time = some v := by
  constructor
  · intro hne hparse
    unfold Section.setDate
    split
    · split
      · rename_i hfalsy
        rcases hfalsy with h | h
        · exact absurd h (by simp)
        · simp at h
          exact absurd h hne
      · simp [hparse]
    · rfl
  · unfold Section.setTime
    split <;> simp_all

/-- Witness for c4_unparsable_silent at a concrete input. -/
theorem c4_unparsable_silent_witness :
    Section.new.setDate (some "xx") = Section.new ∧
    (Section.new.setTime (some "xx")).time = some "xx" :=
  ⟨(c4_unparsable_silent Section.new "xx").1 (by decide) (by decide),
   (c4_unparsable_silent Section.new "xx").2⟩

/-! ### Claim C5: change-notification hook discipline -/

/-- Claim C5 counterexample: assigning to the date setter a value that
differs from the current one but does not parse fires the hook zero
times, not exactly once. -/
theorem c5_counterexample :
    some "xx" ≠ Section.new.date ∧
    (Section.new.setDate (some "xx")).hookCount = Section.new.hookCount := by
  decide

/-- Claim C5 as amended: a plain value setter (title, standing for
every simple setter, and sectionContent) fires the hook exactly once
when the assigned value differs from the stored one and is a complete
no-op when it is equal; in particular re-setting sectionContent to its
current value changes neither the content nor the word count and
triggers no notification.  The date setter is excluded: on an
unparsable value it mutates nothing and fires no hook. -/
theorem c5_hook_discipline (s : Section) (v t : Option String) :
    (v ≠ s.title → (s.setTitle v).hookCount = s.hookCount + 1 ∧ (s.setTitle v).title = v) ∧
    s.setTitle s.title = s ∧
    s.setSectionContent s.sectionContent = s ∧
    (t ≠ s.sectionContent → (s.setSectionContent t).hookCount = s.hookCount + 1) := by
  refine ⟨?_, ?_, ?_, ?_⟩
  · intro hne
    unfold Section.setTitle
    rw [if_pos (fun h => hne h.symm)]
    exact ⟨rfl, rfl⟩
  · unfold Section.setTitle
    rw [if_neg (fun h => h rfl)]
  · unfold Section.setSectionContent
    rw [if_neg (fun h => h rfl)]
  · intro hne
    unfold Section.setSectionContent
    rw [if_pos (fun h => hne h.symm)]
    cases t <;> rfl

/-- Witness for c5_hook_discipline at concrete inputs. -/
theorem c5_hook_discipline_witness :
    ((Section.new.setTitle (some "T")).hookCount = Section.new.hookCount + 1 ∧
     (Section.new.setTitle (some "T")).title = some "T") ∧
    (Section.new.setSectionContent (some "hi")).hookCount = Section.new.hookCount + 1 :=
  ⟨(c5_hook_discipline Section.new (some "T") (some "hi")).1 (by decide),
   (c5_hook_discipline Section.new (some "T") (some "hi")).2.2.2 (by decide)⟩

/-! ### Claim C3: tolerance of unparsable front matter -/

/-- Claim C3 counterexample: an mdnov section block whose front matter
carries a Date value that is not a valid ISO date makes the read pass
raise a ValueError (nothing catches the exception raised inside
verified_date), instead of being tolerated silently. -/
theorem c3_counterexample :
    read_section_outcome ["@@sc0001", "---", "Date: xx", "---", "%%"] =
      some "ValueError: invalid isoformat date" := by
  decide

/-- Claim C3 as amended: malformed key-value lines and out-of-range
enum values in a block front matter are tolerated with defaults, and a
front matter whose Date, Day, Time and duration keys are absent always
parses; but an unparsable value under one of those keys raises a
ValueError that aborts the read pass (see the counterexample). -/
theorem c3_front_matter_tolerance (yaml : List String)
    (h1 : mdGet (metaDict yaml) "Date" = none)
    (h2 : mdGet (metaDict yaml) "Day" = none)
    (h3 : mdGet (metaDict yaml) "Time" = none)
    (h4 : mdGet (metaDict yaml) "LastsDays" = none)
    (h5 : mdGet (metaDict yaml) "LastsHours" = none)
    (h6 : mdGet (metaDict yaml) "LastsMinutes" = none) :
    ∃ out, Section.new.from_yaml yaml = .ok out := by
  have hddate : (Section.new.from_yaml_head (metaDict yaml)).date = none :=
    (Section.from_yaml_head_dateday _ _).1
  have hdd : (Section.new.from_yaml_head (metaDict yaml)).from_yaml_dateday (metaDict yaml) =
      .ok (((Section.new.from_yaml_head (metaDict yaml)).setDate none).setDay none) := by
    unfold Section.from_yaml_dateday
    rw [h1, h2]
    simp [verified_date, verified_int_string, Bind.bind, Except.bind, pure, Except.pure,
      Section.dateFalsy_of_none (Section.date_setDate_none _)]
  have htl : ∀ s : Section, ∃ o, s.from_yaml_tail (metaDict yaml) = .ok o := by
    intro s
    unfold Section.from_yaml_tail
    rw [h3, h4, h5, h6]
    simp [verified_time, verified_int_string, Bind.bind, Except.bind, pure, Except.pure]
  obtain ⟨o, ho⟩ :=
    htl (((Section.new.from_yaml_head (metaDict yaml)).setDate none).setDay none)
  refine ⟨o, ?_⟩
  simp only [Section.from_yaml]
  rw [hdd, except_ok_bind, ho]

/-- Witness for c3_front_matter_tolerance at a concrete front matter
with a malformed line and an out-of-range enum value. -/
theorem c3_front_matter_tolerance_witness :
    ∃ out, Section.new.from_yaml ["Title: X", "garbage", "type: 9"] = .ok out :=
  c3_front_matter_tolerance ["Title: X", "garbage", "type: 9"]
    (by decide) (by decide) (by decide) (by decide) (by decide) (by decide)

/-! ### Claim C7: the novx version gate -/

/-- Claim C7: any newer major, older major or newer minor version is
rejected by the version gate, before any model data is read; a
version attribute of one-dot-three (same major, strictly older minor)
passes the gate and the read proceeds, as does one-dot-four itself,
while two-dot-zero, zero-dot-nine and one-dot-five are rejected
before the body is reached. -/
theorem c7_version_gate :
    (∀ maj mi : Int,
      (MAJOR_VERSION < maj ∨ maj < MAJOR_VERSION ∨ MINOR_VERSION < mi) →
      ∃ e, version_gate maj mi = .error e) ∧
    (∀ (α : Type) (body : α),
      (∃ e, novx_read_gate "2.0" body = .error e) ∧
      (∃ e, novx_read_gate "0.9" body = .error e) ∧
      (∃ e, novx_read_gate "1.5" body = .error e) ∧
      novx_read_gate "1.3" body = .ok body ∧
      novx_read_gate "1.4" body = .ok body) := by
  constructor
  · intro maj mi h
    simp only [MAJOR_VERSION, MINOR_VERSION] at h
    unfold version_gate MAJOR_VERSION MINOR_VERSION
    split_ifs with h1 h2 h3
    · exact ⟨_, rfl⟩
    · exact ⟨_, rfl⟩
    · exact ⟨_, rfl⟩
    · exfalso
      rcases h with h | h | h <;> omega
  · intro α body
    have p20 : parse_version "2.0" = .ok (2, 0) := by decide
    have p09 : parse_version "0.9" = .ok (0, 9) := by decide
    have p13 : parse_version "1.3" = .ok (1, 3) := by decide
    have p14 : parse_version "1.4" = .ok (1, 4) := by decide
    have p15 : parse_version "1.5" = .ok (1, 5) := by decide
    refine ⟨⟨"created with a newer novelibre version", ?_⟩,
      ⟨"created with an outdated novelibre version", ?_⟩,
      ⟨"created with a newer novelibre version", ?_⟩, ?_, ?_⟩
    · unfold novx_read_gate
      rw [p20]
      rfl
    · unfold novx_read_gate
      rw [p09]
      rfl
    · unfold novx_read_gate
      rw [p15]
      rfl
    · unfold novx_read_gate
      rw [p13]
      rfl
    · unfold novx_read_gate
      rw [p14]
      rfl

/-- Witness for c7_version_gate at concrete inputs. -/
theorem c7_version_gate_witness :
    (MAJOR_VERSION < (2 : Int) ∨ (2 : Int) < MAJOR_VERSION ∨ MINOR_VERSION < (0 : Int)) ∧
    (∃ e, version_gate 2 0 = .error e) ∧
    novx_read_gate "1.3" (0 : Nat) = .ok 0 :=
  ⟨Or.inl (by decide), c7_version_gate.1 2 0 (Or.inl (by decide)),
   (c7_version_gate.2 Nat 0).2.2.2.1⟩

/-! ### Claim C9: write backup restoration -/

/-- Claim C9 failing-input evaluation: when the destination already
holds content and the ElementTree write fails with an OSError, the
novx writer leaves the partial content in the destination and the
previous content in the backup file without restoring it - the
handler names only the converter's Error class.  The mdnov writer
(FileExport.write), whose bare except restores the backup, is shown
for contrast on the same input. -/
theorem c9_novx_write_not_restored :
    novx_write_element_tree { dest := some "old", bak := none } (.ioFailure "partial") =
      { fs := { dest := some "partial", bak := some "old" }, exc := some PyExc.osError } ∧
    fileExport_write { dest := some "old", bak := none } (.ioFailure "partial") =
      { fs := { dest := some "old", bak := none }, exc := some PyExc.customError } := by
  decide

/-! ### Claim C10: date-day exclusivity after a read pass -/

/-- Claim C10 counterexample: a section block holding two front-matter
groups, the first assigning Day and the second a valid Date, completes
the mdnov read pass with both date and day set on the section. -/
theorem c10_counterexample :
    read_section_dateday
        ["@@sc0001", "---", "Day: 3", "---", "---", "Date: 2024-01-01", "---", "%%"] =
      some (some "2024-01-01", some "3") := by
  decide

/-- Claim C10 as amended: a single application of each reader's
date-day logic to a freshly created section never leaves both date and
day set - Section.from_yaml assigns day only when no valid date was
obtained, and the novx section reader reads the Day element only when
no Date element exists.  (The unrestricted claim fails when one mdnov
block carries two front-matter groups, see the counterexample.) -/
theorem c10_single_pass_date_xor_day :
    (∀ yaml out, Section.new.from_yaml yaml = .ok out →
      ¬(out.date.isSome ∧ out.day.isSome)) ∧
    (∀ dateElem dayElem out, novx_read_dateday Section.new dateElem dayElem = .ok out →
      ¬(out.date.isSome ∧ out.day.isSome)) := by
  constructor
  · intro yaml out h
    simp only [Section.from_yaml, except_bind_ok] at h
    obtain ⟨mid, hmid, htail⟩ := h
    have hday : (Section.new.from_yaml_head (metaDict yaml)).day = none :=
      (Section.from_yaml_head_dateday Section.new (metaDict yaml)).2
    have hxor := Section.from_yaml_dateday_xor _ _ _ hday hmid
    have hpres := Section.from_yaml_tail_dateday _ _ _ htail
    intro hc
    rw [hpres.1, hpres.2] at hc
    exact hxor hc
  · intro dateElem dayElem out h
    unfold novx_read_dateday at h
    cases dateElem with
    | some dateStr =>
      cases dateStr with
      | some ds =>
        by_cases hp : (isoDateParse ds).isSome
        · replace h : Section.new.setDate (some ds) = out := by simpa [hp] using h
          subst h
          intro hc
          rw [Section.day_setDate] at hc
          exact absurd hc.2 (by decide)
        · replace h : Section.new.setDate none = out := by simpa [hp] using h
          subst h
          intro hc
          rw [Section.date_setDate_none] at hc
          simp at hc
      | none =>
        replace h : Section.new.setDate none = out := by simpa using h
        subst h
        intro hc
        rw [Section.date_setDate_none] at hc
        simp at hc
    | none =>
      cases dayElem with
      | some dayStr =>
        cases dayStr with
        | some d =>
          by_cases hp : (intParse d).isSome
          · replace h : Section.new.setDay (some d) = out := by simpa [hp] using h
            subst h
            intro hc
            rw [Section.date_setDay] at hc
            exact absurd hc.1 (by decide)
          · replace h : Section.new.setDay none = out := by simpa [hp] using h
            subst h
            intro hc
            rw [Section.date_setDay] at hc
            exact absurd hc.1 (by decide)
        | none => simp at h
      | none =>
        replace h : Section.new = out := by simpa using h
        subst h
        intro hc
        exact absurd hc.1 (by decide)

/-- Witness for c10_single_pass_date_xor_day at a concrete input. -/
theorem c10_single_pass_date_xor_day_witness :
    ¬((Section.new.setDate (some "2024-01-01")).date.isSome ∧
      (Section.new.setDate (some "2024-01-01")).day.isSome) :=
  c10_single_pass_date_xor_day.2 (some (some "2024-01-01")) none
    (Section.new.setDate (some "2024-01-01")) (by decide)

/-! ### Claim C6: type propagation by adjust_section_types -/

/-- The adjust loop preserves the number of chapters. -/
theorem adjust_loop_length (p : Int) (cs : List AdjChapter) :
    (adjust_loop p cs).length = cs.length := by
  induction cs generalizing p with
  | nil => rfl
  | cons c rest ih => simp [adjust_loop, ih]

/-- The adjust loop distributes over append, threading the running
part type through the first block. -/
theorem adjust_loop_append (p : Int) (xs ys : List AdjChapter) :
    adjust_loop p (xs ++ ys) = adjust_loop p xs ++ adjust_loop (foldPartType p xs) ys := by
  induction xs generalizing p with
  | nil => simp [adjust_loop, foldPartType]
  | cons c rest ih =>
    simp only [List.cons_append, adjust_loop, List.append_eq]
    rw [ih]
    simp [foldPartType]

/-- The part type accumulator ignores non-part chapters. -/
theorem foldPartType_nonparts : ∀ (cs : List AdjChapter) (p : Int),
    (∀ c ∈ cs, c.chLevel ≠ 1) → foldPartType p cs = p
  | [], _, _ => rfl
  | c :: rest, p, h => by
    have hc : c.chLevel ≠ 1 := h c (by simp)
    simp only [foldPartType, List.foldl_cons]
    rw [if_neg hc]
    exact foldPartType_nonparts rest p (fun x hx => h x (List.mem_cons_of_mem _ hx))

/-- Under a running part type of one, the adjust loop acts pointwise
as promote1 on a block of non-part chapters. -/
theorem adjust_loop_one_nonparts : ∀ (mids : List AdjChapter),
    (∀ c ∈ mids, c.chLevel ≠ 1) → adjust_loop 1 mids = mids.map promote1
  | [], _ => rfl
  | c :: rest, h => by
    have hc : c.chLevel ≠ 1 := h c (by simp)
    have ih := adjust_loop_one_nonparts rest (fun x hx => h x (List.mem_cons_of_mem _ hx))
    by_cases ht : c.isTrash <;>
      simp [adjust_loop, hc, ht, promote1, ih]

/-- Claim C6: in a chapter list containing a part (chLevel one) of
type one followed by non-part sibling chapters of type zero,
adjust_section_types maps exactly those siblings through promote1 (at
positions following the part): every sibling not flagged isTrash ends
with chapter type one and all of its sections at type at least one,
while isTrash siblings keep their chapter type. -/
theorem c6_adjust_section_types_promotes (pre : List AdjChapter) (part : AdjChapter)
    (mids tail : List AdjChapter)
    (hlvl : part.chLevel = 1) (htyp : part.chType = 1)
    (hmids : ∀ c ∈ mids, c.chLevel ≠ 1 ∧ c.chType = 0) :
    (∃ A B, adjust_section_types (pre ++ part :: (mids ++ tail)) =
        A ++ mids.map promote1 ++ B ∧ A.length = pre.length + 1) ∧
    (∀ c ∈ mids, ¬c.isTrash →
      (promote1 c).chType = 1 ∧ ∀ t ∈ (promote1 c).scTypes, 1 ≤ t) ∧
    (∀ c ∈ mids, c.isTrash → (promote1 c).chType = c.chType) := by
  refine ⟨?_, ?_, ?_⟩
  · unfold adjust_section_types
    rw [adjust_loop_append]
    have hstep : ∀ rest, adjust_loop (foldPartType 0 pre) (part :: rest) =
        ({ part with scTypes := part.scTypes.map (fun t => if t < 1 then 1 else t) })
          :: adjust_loop 1 rest := by
      intro rest
      simp [adjust_loop, hlvl, htyp]
    rw [hstep (mids ++ tail), adjust_loop_append 1 mids tail,
      adjust_loop_one_nonparts mids (fun c hc => (hmids c hc).1)]
    refine ⟨adjust_loop 0 pre ++
      [{ part with scTypes := part.scTypes.map (fun t => if t < 1 then 1 else t) }],
      adjust_loop (foldPartType 1 mids) tail, ?_, ?_⟩
    · simp
    · simp [adjust_loop_length]
  · intro c hc hnt
    have h0 := (hmids c hc).2
    unfold promote1
    rw [if_neg hnt]
    refine ⟨rfl, ?_⟩
    intro t ht
    obtain ⟨t0, _, rfl⟩ := List.mem_map.mp ht
    split <;> omega
  · intro c hc ht
    unfold promote1
    rw [if_pos ht]

/-- Witness for c6_adjust_section_types_promotes at a concrete model:
an unused part followed by a normal sibling (promoted) and a trash
sibling (kept). -/
theorem c6_adjust_section_types_promotes_witness :
    (∀ c ∈ [(⟨2, 0, false, [0, 2]⟩ : AdjChapter), ⟨2, 0, true, [0]⟩],
      c.chLevel ≠ 1 ∧ c.chType = 0) ∧
    ((∃ A B, adjust_section_types ([] ++ (⟨1, 1, false, [0]⟩ : AdjChapter) ::
        ([(⟨2, 0, false, [0, 2]⟩ : AdjChapter), ⟨2, 0, true, [0]⟩] ++ [])) =
        A ++ [(⟨2, 0, false, [0, 2]⟩ : AdjChapter), ⟨2, 0, true, [0]⟩].map promote1 ++ B ∧
        A.length = ([] : List AdjChapter).length + 1) ∧
    (∀ c ∈ [(⟨2, 0, false, [0, 2]⟩ : AdjChapter), ⟨2, 0, true, [0]⟩], ¬c.isTrash →
      (promote1 c).chType = 1 ∧ ∀ t ∈ (promote1 c).scTypes, 1 ≤ t) ∧
    (∀ c ∈ [(⟨2, 0, false, [0, 2]⟩ : AdjChapter), ⟨2, 0, true, [0]⟩], c.isTrash →
      (promote1 c).chType = c.chType)) :=
  ⟨by decide,
   c6_adjust_section_types_promotes [] ⟨1, 1, false, [0]⟩
     [⟨2, 0, false, [0, 2]⟩, ⟨2, 0, true, [0]⟩] [] rfl rfl (by decide)⟩

/-! ### Claim C8: get_children of the tree index -/

/-- Claim C8 counterexample: on a freshly initialised tree,
get_children applied to an unknown parent that carries neither the
chapter nor the plot-line ID prefix (here a section ID) returns None,
not the empty list - the source function falls off its end. -/
theorem c8_counterexample : NvTree.init.get_children "sc0001" = none := by
  decide

/-- Finding a key right after an in-place map update. -/
theorem find?_map_update (m : List (String × List String)) (k : String) (v : List String)
    (h : m.any (fun p => p.1 = k) = true) :
    List.find? (fun p => p.1 = k)
      (m.map (fun p => if p.1 = k then (k, v) else p)) = some (k, v) := by
  induction m with
  | nil => simp at h
  | cons a rest ih =>
    by_cases hk : a.1 = k
    · simp [hk, List.find?_cons_of_pos]
    · have hr : rest.any (fun p => p.1 = k) = true := by
        simp only [List.any_cons] at h
        simpa [hk] using h
      simp [hk, List.find?_cons_of_neg, ih hr]

/-- Finding a key appended behind a list that does not contain it. -/
theorem find?_append_new (m : List (String × List String)) (k : String) (v : List String)
    (h : m.any (fun p => p.1 = k) = false) :
    List.find? (fun p => p.1 = k) (m ++ [(k, v)]) = some (k, v) := by
  induction m with
  | nil => simp
  | cons a rest ih =>
    simp only [List.any_cons, Bool.or_eq_false_iff] at h
    have ha : ¬(a.1 = k) := by simpa using h.1
    simp [List.find?_cons_of_neg, ha, ih h.2]

/-- Lookup after update yields the stored value. -/
theorem lookupL_updateL (m : List (String × List String)) (k : String) (v : List String) :
    lookupL (updateL m k v) k = some v := by
  unfold updateL lookupL
  split
  · rename_i h
    rw [find?_map_update m k v h]
    rfl
  · rename_i h
    rw [find?_append_new m k v (Bool.eq_false_iff.mpr h)]
    rfl

/-- No string starts with both the chapter and the plot-line prefix. -/
theorem not_ch_and_ac (p : String) (h1 : pyStartsWith p "ch" = true)
    (h2 : pyStartsWith p "ac" = true) : False := by
  simp only [pyStartsWith, decide_eq_true_eq] at h1 h2
  simp only [List.length_cons, List.length_nil] at h1 h2
  rw [h1] at h2
  simp at h2

/-- Claim C8 as amended: get_children returns the stored ordered list
for a root tag, the section or plot-point list (empty when unknown)
for a parent carrying the chapter or plot-line ID prefix, and None -
not a list - for any other unknown parent; appending a child to a
tracked parent extends that parent's ordered child list at the end. -/
theorem c8_get_children_amended (t : NvTree) (p c : String) :
    (lookupL t.roots p = none → pyStartsWith p "ch" = false → pyStartsWith p "ac" = false →
      t.get_children p = none) ∧
    (lookupL t.roots p = none → pyStartsWith p "ch" = true →
      lookupL t.srtSections p = none → t.get_children p = some []) ∧
    (lookupL t.roots p = none → pyStartsWith p "ac" = true →
      lookupL t.srtTurningPoints p = none → t.get_children p = some []) ∧
    ((t.get_children p).isSome →
      (t.append p c).get_children p = some ((t.get_children p).getD [] ++ [c])) := by
  refine ⟨?_, ?_, ?_, ?_⟩
  · intro h1 h2 h3
    simp [NvTree.get_children, h1, h2, h3]
  · intro h1 h2 h3
    simp [NvTree.get_children, h1, h2, h3]
  · intro h1 h2 h3
    have hch : pyStartsWith p "ch" = false := by
      rcases Bool.eq_false_or_eq_true (pyStartsWith p "ch") with hq | hq
      · exact absurd (not_ch_and_ac p hq h2) not_false
      · exact hq
    simp [NvTree.get_children, h1, hch, h2, h3]
  · intro hs
    cases hr : lookupL t.roots p with
    | some l =>
      have hg : t.get_children p = some l := by
        unfold NvTree.get_children
        rw [hr]
      have happ : (t.append p c).roots = updateL t.roots p (l ++ [c]) := by
        unfold NvTree.append
        rw [hr]
        by_cases h1 : p = "rtch"
        · simp [h1]
        · by_cases h2 : p = "rtac" <;> simp [h1, h2]
      have hlk : lookupL (t.append p c).roots p = some (l ++ [c]) := by
        rw [happ]
        exact lookupL_updateL _ _ _
      rw [hg]
      unfold NvTree.get_children
      rw [hlk]
      rfl
    | none =>
      by_cases hch : pyStartsWith p "ch" = true
      · have hg : t.get_children p = some ((lookupL t.srtSections p).getD []) := by
          unfold NvTree.get_children
          rw [hr]
          simp [hch]
        have happ : (t.append p c).srtSections =
            updateL t.srtSections p ((lookupL t.srtSections p).getD [] ++ [c]) ∧
            (t.append p c).roots = t.roots := by
          unfold NvTree.append
          rw [hr]
          cases hsx : lookupL t.srtSections p with
          | some l2 => simp [hch, hsx]
          | none => simp [hch, hsx]
        have hlk : lookupL (t.append p c).srtSections p =
            some ((lookupL t.srtSections p).getD [] ++ [c]) := by
          rw [happ.1]
          exact lookupL_updateL _ _ _
        rw [hg]
        unfold NvTree.get_children
        rw [happ.2, hr]
        simp [hch, hlk]
      · by_cases hac : pyStartsWith p "ac" = true
        · have hg : t.get_children p = some ((lookupL t.srtTurningPoints p).getD []) := by
            unfold NvTree.get_children
            rw [hr]
            simp [hch, hac]
          have happ : (t.append p c).srtTurningPoints =
              updateL t.srtTurningPoints p ((lookupL t.srtTurningPoints p).getD [] ++ [c]) ∧
              (t.append p c).roots = t.roots := by
            unfold NvTree.append
            rw [hr]
            cases hsx : lookupL t.srtTurningPoints p with
            | some l2 => simp [hch, hac, hsx]
            | none => simp [hch, hac, hsx]
          have hlk : lookupL (t.append p c).srtTurningPoints p =
              some ((lookupL t.srtTurningPoints p).getD [] ++ [c]) := by
            rw [happ.1]
            exact lookupL_updateL _ _ _
          rw [hg]
          unfold NvTree.get_children
          rw [happ.2, hr]
          simp [hch, hac, hlk]
        · have hnone : t.get_children p = none := by
            unfold NvTree.get_children
            rw [hr]
            simp [hch, hac]
          rw [hnone] at hs
          simp at hs

/-- Witness for c8_get_children_amended at concrete inputs: an
unknown chapter-prefixed parent yields the empty list, and appending
under the chapter root extends that root's ordered child list. -/
theorem c8_get_children_amended_witness :
    NvTree.init.get_children "ch0009" = some [] ∧
    (NvTree.init.append "rtch" "ch1").get_children "rtch" =
      some ((NvTree.init.get_children "rtch").getD [] ++ ["ch1"]) :=
  ⟨(c8_get_children_amended NvTree.init "ch0009" "x").2.1 (by decide) (by decide) (by decide),
   (c8_get_children_amended NvTree.init "rtch" "ch1").2.2.2 (by decide)⟩

end MdnovNovx
